import Mathlib

/-!
Verification of the waste-sorting controller
(src/waste_classification/waste_classification.ino).

The sketch is embedded shallowly: every hardware or I/O action the code
performs (buzzer writes, blocking delays, WiFi disconnect/reconnect, camera
capture, HTTP POST, stepper moves, servo writes, and the single write to the
global `currentSlot`) is recorded as an event in an explicit trace, and the
mutable globals (`currentSlot`, `lastIrTime`) are passed as explicit state.
External collaborators (WiFi link state, camera, HTTP transport, JSON parse
result, the decoded label field) are inputs supplied by an environment
record, one per detection cycle.
-/

/-- Compile-time constant from the sketch: full revolution of the 28BYJ-48. -/
def stepsPerRevolution : Int := 2048

/-- Compile-time constant from the sketch: number of waste categories. -/
def wasteCategories : Int := 5

/-- Integer division as in the C source: steps of one carousel slot. -/
def stepsPerSlot : Int := stepsPerRevolution / wasteCategories

/-- The label table: order must match the trained model classes. -/
def wasteLabels : List String := ["Plastic", "Paper", "Organic", "Metal", "Glass"]

/-- Debounce interval for the IR trigger, in milliseconds. -/
def irDebounceMs : Nat := 200

/-- How long the trapdoor stays open, in milliseconds. -/
def trapdoorOpenMs : Nat := 900

/-- Servo angle for the closed trapdoor. -/
def servoClosedAngle : Int := 0

/-- Servo angle for the open trapdoor. -/
def servoOpenAngle : Int := 90

/-- One observable action of the sketch: buzzer edges, blocking delays,
WiFi teardown/re-establishment, a camera capture attempt, the HTTP POST,
a stepper move command, a servo write, and the single global write of
`currentSlot`. -/
inductive Ev where
  | buzzerOn
  | buzzerOff
  | delayMs (ms : Nat)
  | wifiDisconnect
  | wifiReconnect
  | captureFrame
  | httpPost
  | stepperStep (steps : Int)
  | servoWrite (angle : Int)
  | setSlot (slot : Int)
  deriving DecidableEq, Repr

/-- The `beep(times, durationMs, gapMs)` helper: for each pulse the buzzer
goes high, holds for `durationMs`, goes low, and a gap of `gapMs` follows
every pulse except the last (the C loop guards the gap with
`i < times - 1`). -/
def beep : Nat → Nat → Nat → List Ev
  | 0, _, _ => []
  | 1, durationMs, _ => [Ev.buzzerOn, Ev.delayMs durationMs, Ev.buzzerOff]
  | times + 2, durationMs, gapMs =>
      Ev.buzzerOn :: Ev.delayMs durationMs :: Ev.buzzerOff :: Ev.delayMs gapMs ::
        beep (times + 1) durationMs gapMs

/-- The `beepWiFiConnected()` pattern: a long beep, a 150 ms pause, a short beep.
The C calls `beep(1, 300)` and `beep(1, 150)`, leaving the gap argument at
its default 100 (unused when `times = 1`). -/
def beepWiFiConnected : List Ev := beep 1 300 100 ++ [Ev.delayMs 150] ++ beep 1 150 100

/-- The `beepWiFiFailed()` pattern: three slow beeps. -/
def beepWiFiFailed : List Ev := beep 3 200 150

/-- Environment for one connectivity check: whether the link is up when the
cycle starts, and the link state as a function of milliseconds elapsed since
the reconnect was issued (time advances only through the `delay(200)` poll
waits, as in the blocking sketch). -/
structure WifiEnv where
  initiallyConnected : Bool
  statusAt : Nat → Bool

/-- The reconnect wait loop of `handleWasteDetected`:
`while (WiFi.status() != WL_CONNECTED && millis() - waitStart < 5000) delay(200);`
returning the final elapsed time and the delays performed. -/
def wifiWaitLoop (statusAt : Nat → Bool) (elapsed : Nat) : Nat × List Ev :=
  if _h : statusAt elapsed = false ∧ elapsed < 5000 then
    let r := wifiWaitLoop statusAt (elapsed + 200)
    (r.1, Ev.delayMs 200 :: r.2)
  else (elapsed, [])
termination_by 5000 - elapsed
decreasing_by omega

/-- The connectivity block at the top of `handleWasteDetected`: if WiFi is
already connected nothing happens; otherwise the sketch disconnects,
issues a reconnect, polls the status for up to 5 s at 200 ms intervals, and
either beeps the failure pattern (the caller then aborts the cycle) or beeps
the connected pattern and proceeds. -/
def ensureConnected (env : WifiEnv) : Bool × List Ev :=
  if env.initiallyConnected then (true, [])
  else
    let r := wifiWaitLoop env.statusAt 0
    if env.statusAt r.1 = false then
      (false, Ev.wifiDisconnect :: Ev.wifiReconnect :: (r.2 ++ beepWiFiFailed))
    else
      (true, Ev.wifiDisconnect :: Ev.wifiReconnect :: (r.2 ++ beepWiFiConnected))

/-- A C string as produced by `doc["label"].as<const char*>()`: either a
real string or the null pointer (when the parsed document has no
string-valued `label` member). -/
inductive CStr where
  | null
  | str (s : String)

/-- The test `strcmp(predictedLabel, wasteLabels[i]) == 0`: defined (exact,
case-sensitive equality) when the first argument is a real string, undefined
behavior (`none`) when it is the null pointer. -/
def strcmpEqZero : CStr → String → Option Bool
  | CStr.null, _ => none
  | CStr.str a, b => some (a == b)

/-- The label-matching loop of `handleWasteDetected`: `labelIndex` starts at
-1 and the loop breaks at the first `i` whose table entry compares equal to
the predicted label; `none` records that an iteration applied `strcmp` to a
null pointer. -/
def labelMatchLoop (pred : CStr) : List String → Int → Option Int
  | [], _ => some (-1)
  | l :: ls, i =>
      match strcmpEqZero pred l with
      | none => none
      | some true => some i
      | some false => labelMatchLoop pred ls (i + 1)

/-- Index of a (non-null) label string in the label table, -1 when absent:
the result of the matching loop run from index 0. -/
def findLabelIndex (s : String) : Int :=
  match labelMatchLoop (CStr.str s) wasteLabels 0 with
  | some i => i
  | none => -1

/-- The shortest-arc delta computation at the top of `sortWaste`:
`delta = label - currentSlot`, wrapped by `wasteCategories` whenever
`abs(delta) > wasteCategories / 2`. -/
def planMove (current target : Int) : Int :=
  let delta := target - current
  if |delta| > wasteCategories / 2 then
    if delta > 0 then delta - wasteCategories else delta + wasteCategories
  else delta

/-- The `sortWaste(label)` routine: start beep; rotate by `delta * stepsPerSlot` steps
plus a 100 ms settle delay when that is nonzero; open the trapdoor, dwell,
close it; write `currentSlot = label`; completion beeps. Returns the new
`currentSlot` and the trace. -/
def sortWaste (currentSlot label : Int) : Int × List Ev :=
  let delta := planMove currentSlot label
  let stepsToMove := delta * stepsPerSlot
  (label,
    beep 1 300 100 ++
      (if stepsToMove ≠ 0 then [Ev.stepperStep stepsToMove, Ev.delayMs 100] else []) ++
      [Ev.servoWrite servoOpenAngle, Ev.delayMs trapdoorOpenMs, Ev.servoWrite servoClosedAngle] ++
      Ev.setSlot label :: beep 3 80 50)

/-- How one detection cycle's external collaborators behave: the WiFi link,
whether `esp_camera_fb_get()` returns a frame, the HTTP POST result code,
whether `deserializeJson` fails, and the `label` member of the parsed
document (`none` when missing or not a string). -/
structure CycleEnv where
  wifi : WifiEnv
  captureOk : Bool
  httpCode : Int
  parseFailed : Bool
  labelField : Option String

/-- How one detection cycle ended. `nullStrcmp` marks the undefined
behavior of running the matching loop on a null label pointer. -/
inductive CycleOutcome where
  | connectivityTimeout
  | captureError
  | networkError
  | parseError
  | nullStrcmp
  | unknownLabel
  | sorted (idx : Int)
  deriving DecidableEq, Repr

/-- The `handleWasteDetected()` cycle: ensure connectivity (abort on failure), attempt
a capture (abort on null frame), POST the image, and on a positive HTTP code
parse the JSON, read `doc["label"]`, run the matching loop, and either log an
unknown label or call `sortWaste` on the matched index. Returns the new
`currentSlot`, the trace, and the outcome. -/
def handleWasteDetected (env : CycleEnv) (currentSlot : Int) : Int × List Ev × CycleOutcome :=
  let wifi := ensureConnected env.wifi
  if wifi.1 = false then (currentSlot, wifi.2, CycleOutcome.connectivityTimeout)
  else if env.captureOk = false then
    (currentSlot, wifi.2 ++ [Ev.captureFrame], CycleOutcome.captureError)
  else if env.httpCode > 0 then
    if env.parseFailed then
      (currentSlot, wifi.2 ++ [Ev.captureFrame, Ev.httpPost], CycleOutcome.parseError)
    else
      let predictedLabel : CStr :=
        match env.labelField with
        | none => CStr.null
        | some s => CStr.str s
      match labelMatchLoop predictedLabel wasteLabels 0 with
      | none =>
          (currentSlot, wifi.2 ++ [Ev.captureFrame, Ev.httpPost], CycleOutcome.nullStrcmp)
      | some labelIndex =>
          if labelIndex = -1 then
            (currentSlot, wifi.2 ++ [Ev.captureFrame, Ev.httpPost], CycleOutcome.unknownLabel)
          else
            let r := sortWaste currentSlot labelIndex
            (r.1, wifi.2 ++ [Ev.captureFrame, Ev.httpPost] ++ r.2,
              CycleOutcome.sorted labelIndex)
  else
    (currentSlot, wifi.2 ++ [Ev.captureFrame, Ev.httpPost], CycleOutcome.networkError)

/-- The sketch's mutable globals: the carousel position and the timestamp of
the last accepted IR detection. -/
structure SysState where
  currentSlot : Int
  lastIrTime : Nat
  deriving DecidableEq, Repr

/-- State after `setup()`: `currentSlot = 0` (assumed home), `lastIrTime`
still at its zero initial value. -/
def initialState : SysState := { currentSlot := 0, lastIrTime := 0 }

/-- One `loop()` iteration: when the IR reads LOW and more than
`irDebounceMs` have passed since the last accepted detection, record the
detection time, beep twice, and run the full cycle; otherwise do nothing. -/
def loopStep (env : CycleEnv) (st : SysState) (irLow : Bool) (now : Nat) :
    SysState × List Ev :=
  if irLow = true ∧ now - st.lastIrTime > irDebounceMs then
    let r := handleWasteDetected env st.currentSlot
    ({ currentSlot := r.1, lastIrTime := now }, beep 2 100 50 ++ r.2.1)
  else (st, [])

/-! ## Evaluation helpers -/

lemma beep_one (d g : Nat) : beep 1 d g = [Ev.buzzerOn, Ev.delayMs d, Ev.buzzerOff] := rfl

lemma beep_two (d g : Nat) :
    beep 2 d g =
      [Ev.buzzerOn, Ev.delayMs d, Ev.buzzerOff, Ev.delayMs g,
       Ev.buzzerOn, Ev.delayMs d, Ev.buzzerOff] := rfl

lemma beep_three (d g : Nat) :
    beep 3 d g =
      [Ev.buzzerOn, Ev.delayMs d, Ev.buzzerOff, Ev.delayMs g,
       Ev.buzzerOn, Ev.delayMs d, Ev.buzzerOff, Ev.delayMs g,
       Ev.buzzerOn, Ev.delayMs d, Ev.buzzerOff] := rfl

/-- The reconnect wait loop only performs 200 ms delays, and never lets the
elapsed time pass the 5000 ms bound (the physical loop performs at most 25
polls). -/
lemma wifiWaitLoop_replicate (f : Nat → Bool) :
    ∀ k e, 5000 - e ≤ 200 * k → 200 ∣ e → e ≤ 5000 →
      ∃ m, wifiWaitLoop f e = (e + 200 * m, List.replicate m (Ev.delayMs 200)) ∧
        e + 200 * m ≤ 5000 := by
  intro k
  induction k with
  | zero =>
      intro e hk _ hle
      refine ⟨0, ?_, by omega⟩
      rw [wifiWaitLoop]
      have h : ¬ (f e = false ∧ e < 5000) := by omega
      simp [h]
  | succ n ih =>
      intro e hk hdvd hle
      by_cases hc : f e = false ∧ e < 5000
      · obtain ⟨c, hc2⟩ := hdvd
        have h200 : 200 ∣ e + 200 := by omega
        have hle2 : e + 200 ≤ 5000 := by omega
        obtain ⟨m, hm, hb⟩ := ih (e + 200) (by omega) h200 hle2
        refine ⟨m + 1, ?_, by omega⟩
        rw [wifiWaitLoop]
        simp [hc, hm]
        constructor
        · omega
        · rfl
      · refine ⟨0, ?_, by omega⟩
        rw [wifiWaitLoop]
        simp [hc]

/-- Exact shape of the connectivity block's result: nothing when the link is
already up, otherwise teardown, reconnect, at most 25 polls of 200 ms, and
one feedback pattern selected by the final link state. -/
lemma ensureConnected_shape (w : WifiEnv) :
    (w.initiallyConnected = true ∧ ensureConnected w = (true, [])) ∨
    (w.initiallyConnected = false ∧ ∃ n, n ≤ 25 ∧
      ensureConnected w =
        (w.statusAt (200 * n),
         Ev.wifiDisconnect :: Ev.wifiReconnect ::
           (List.replicate n (Ev.delayMs 200) ++
             (if w.statusAt (200 * n) = true then beepWiFiConnected else beepWiFiFailed)))) := by
  cases hi : w.initiallyConnected
  · right
    refine ⟨rfl, ?_⟩
    obtain ⟨m, hm, hle⟩ := wifiWaitLoop_replicate w.statusAt 25 0 (by omega) ⟨0, rfl⟩ (by omega)
    refine ⟨m, by omega, ?_⟩
    rw [ensureConnected]
    simp only [hi, Bool.false_eq_true, if_false, hm, Nat.zero_add]
    cases hs : w.statusAt (200 * m) <;> simp [hs]
  · left
    exact ⟨rfl, by simp [ensureConnected, hi]⟩

lemma beepWiFiConnected_eq :
    beepWiFiConnected =
      [Ev.buzzerOn, Ev.delayMs 300, Ev.buzzerOff, Ev.delayMs 150,
       Ev.buzzerOn, Ev.delayMs 150, Ev.buzzerOff] := rfl

lemma beepWiFiFailed_eq :
    beepWiFiFailed =
      [Ev.buzzerOn, Ev.delayMs 200, Ev.buzzerOff, Ev.delayMs 150,
       Ev.buzzerOn, Ev.delayMs 200, Ev.buzzerOff, Ev.delayMs 150,
       Ev.buzzerOn, Ev.delayMs 200, Ev.buzzerOff] := rfl

/-- Every event the connectivity block can emit is a WiFi action, a buzzer
edge, or a delay. -/
lemma mem_ensureConnected (w : WifiEnv) (x : Ev) (hx : x ∈ (ensureConnected w).2) :
    x = Ev.wifiDisconnect ∨ x = Ev.wifiReconnect ∨ x = Ev.buzzerOn ∨ x = Ev.buzzerOff ∨
      ∃ m, x = Ev.delayMs m := by
  rcases ensureConnected_shape w with ⟨_, heq⟩ | ⟨_, n, _, heq⟩
  · rw [heq] at hx
    simp at hx
  · rw [heq] at hx
    simp only [List.mem_cons, List.mem_append, List.mem_replicate] at hx
    rcases hx with h | h | ⟨_, h⟩ | h
    · exact Or.inl h
    · exact Or.inr (Or.inl h)
    · exact Or.inr (Or.inr (Or.inr (Or.inr ⟨200, h⟩)))
    · by_cases hw : w.statusAt (200 * n) = true
      · rw [if_pos hw, beepWiFiConnected_eq] at h
        fin_cases h <;> simp
      · rw [if_neg hw, beepWiFiFailed_eq] at h
        fin_cases h <;> simp

/-! ## Claim theorems -/

/-- Claim C1: for every pair current, target in [0, N) with N the fixed
category count, the move-planning step computes delta = target - current
and, when its magnitude exceeds N/2, wraps it by N, so that the returned
signed delta has magnitude at most N/2 and (current + delta) mod N =
target. -/
theorem planMove_shortest_path (current target : Int)
    (h1 : 0 ≤ current) (h2 : current < wasteCategories)
    (h3 : 0 ≤ target) (h4 : target < wasteCategories) :
    |planMove current target| ≤ wasteCategories / 2 ∧
      (current + planMove current target) % wasteCategories = target := by
  simp only [wasteCategories] at h2 h4
  interval_cases current <;> interval_cases target <;> decide

/-- Witness for C1 at current = 0, target = 3. -/
theorem planMove_shortest_path_witness :
    |planMove 0 3| ≤ wasteCategories / 2 ∧ (0 + planMove 0 3) % wasteCategories = 3 :=
  planMove_shortest_path 0 3 (by decide) (by decide) (by decide) (by decide)

/-- Claim C3: planning a move from slot k to itself yields delta 0, and
executing a zero delta commands no stepper move and no 100 ms settle delay,
while the trapdoor open/dwell/close cycle still runs. -/
theorem planMove_noop (k : Int) :
    planMove k k = 0 ∧
    (sortWaste k k).1 = k ∧
    (∀ n, Ev.stepperStep n ∉ (sortWaste k k).2) ∧
    Ev.delayMs 100 ∉ (sortWaste k k).2 ∧
    ∃ pre post,
      (sortWaste k k).2 =
        pre ++
          [Ev.servoWrite servoOpenAngle, Ev.delayMs trapdoorOpenMs,
            Ev.servoWrite servoClosedAngle] ++ post := by
  have h0 : planMove k k = 0 := by simp [planMove, wasteCategories]
  have htr : (sortWaste k k).2 =
      [Ev.buzzerOn, Ev.delayMs 300, Ev.buzzerOff] ++
        [Ev.servoWrite servoOpenAngle, Ev.delayMs trapdoorOpenMs,
          Ev.servoWrite servoClosedAngle] ++
        Ev.setSlot k ::
          [Ev.buzzerOn, Ev.delayMs 80, Ev.buzzerOff, Ev.delayMs 50,
           Ev.buzzerOn, Ev.delayMs 80, Ev.buzzerOff, Ev.delayMs 50,
           Ev.buzzerOn, Ev.delayMs 80, Ev.buzzerOff] := by
    simp [sortWaste, h0, beep_one, beep_three]
  refine ⟨h0, rfl, ?_, ?_, ?_⟩
  · intro n hn
    rw [htr] at hn
    simp at hn
  · intro hn
    rw [htr] at hn
    simp [trapdoorOpenMs] at hn
  · refine ⟨[Ev.buzzerOn, Ev.delayMs 300, Ev.buzzerOff],
      Ev.setSlot k ::
        [Ev.buzzerOn, Ev.delayMs 80, Ev.buzzerOff, Ev.delayMs 50,
         Ev.buzzerOn, Ev.delayMs 80, Ev.buzzerOff, Ev.delayMs 50,
         Ev.buzzerOn, Ev.delayMs 80, Ev.buzzerOff], ?_⟩
    rw [htr]

/-- Claim C7: the sort routine's trace is exactly, in order: sort-started
feedback, then (when the delta is nonzero) the rotation command with its
100 ms settle delay, then the gate open / 900 ms dwell / close, then the
single write of currentSlot to the target, then the sort-complete feedback;
the position write never precedes the motion or the gate cycle. -/
theorem sortWaste_sequence (cur label : Int) :
    (sortWaste cur label).1 = label ∧
    (sortWaste cur label).2 =
      beep 1 300 100 ++
        (if planMove cur label = 0 then []
         else [Ev.stepperStep (planMove cur label * stepsPerSlot), Ev.delayMs 100]) ++
        [Ev.servoWrite servoOpenAngle, Ev.delayMs trapdoorOpenMs,
          Ev.servoWrite servoClosedAngle] ++
        Ev.setSlot label :: beep 3 80 50 := by
  refine ⟨rfl, ?_⟩
  by_cases h : planMove cur label = 0
  · simp [sortWaste, h]
  · have hne : planMove cur label * stepsPerSlot ≠ 0 := mul_ne_zero h (by decide)
    simp [sortWaste, h, hne]

/-- Claim C10: stepsPerSlot is the truncated quotient 2048 / 5 = 409, so
five slots are 2045 steps, 3 short of a revolution; a delta-slot move issues
exactly delta * 409 stepper steps, and any delta sequence summing to one
revolution moves 2045 = 2048 - 3 steps. -/
theorem stepsPerSlot_truncation (deltas : List Int) (cur target : Int)
    (hsum : deltas.sum = wasteCategories)
    (hnz : planMove cur target ≠ 0) :
    stepsPerSlot = 409 ∧
    wasteCategories * stepsPerSlot = 2045 ∧
    stepsPerRevolution - wasteCategories * stepsPerSlot = 3 ∧
    Ev.stepperStep (planMove cur target * stepsPerSlot) ∈ (sortWaste cur target).2 ∧
    (∀ n, Ev.stepperStep n ∈ (sortWaste cur target).2 →
      n = planMove cur target * stepsPerSlot) ∧
    (deltas.map (fun d => d * stepsPerSlot)).sum = stepsPerRevolution - 3 := by
  have hne : planMove cur target * stepsPerSlot ≠ 0 := mul_ne_zero hnz (by decide)
  have hmul : ∀ l : List Int, (l.map (fun d => d * stepsPerSlot)).sum = l.sum * stepsPerSlot := by
    intro l
    induction l with
    | nil => simp
    | cons a l ih => simp [ih, add_mul]
  refine ⟨by decide, by decide, by decide, ?_, ?_, ?_⟩
  · simp [sortWaste, hne, beep_one, beep_three]
  · intro n hn
    simp [sortWaste, hne, beep_one, beep_three] at hn
    exact hn
  · rw [hmul, hsum]
    decide

/-- Witness for C10 with deltas [2, 2, 1] and the move 0 to 3. -/
theorem stepsPerSlot_truncation_witness :
    ([2, 2, 1] : List Int).sum = wasteCategories ∧ planMove 0 3 ≠ 0 ∧
    (([2, 2, 1] : List Int).map (fun d => d * stepsPerSlot)).sum =
      stepsPerRevolution - 3 :=
  ⟨by decide, by decide,
    (stepsPerSlot_truncation [2, 2, 1] 0 3 (by decide) (by decide)).2.2.2.2.2⟩

/-! ## Label-matching and cycle case analysis -/

lemma sortWaste_fst (c l : Int) : (sortWaste c l).1 = l := rfl

/-- With a real (non-null) label string every comparison is defined, so the
matching loop always produces a result. -/
lemma labelMatchLoop_str_isSome (s : String) :
    ∀ ls i, ∃ r, labelMatchLoop (CStr.str s) ls i = some r := by
  intro ls
  induction ls with
  | nil => intro i; exact ⟨-1, rfl⟩
  | cons l ls ih =>
      intro i
      by_cases h : s = l
      · exact ⟨i, by simp [labelMatchLoop, strcmpEqZero, h]⟩
      · obtain ⟨r, hr⟩ := ih (i + 1)
        have hb : (s == l) = false := beq_eq_false_iff_ne.mpr h
        exact ⟨r, by simp [labelMatchLoop, strcmpEqZero, hb, hr]⟩

/-- The matching loop returns -1 or an index inside the traversed table. -/
lemma labelMatchLoop_range (pred : CStr) :
    ∀ ls (i idx : Int), labelMatchLoop pred ls i = some idx →
      idx = -1 ∨ (i ≤ idx ∧ idx < i + ls.length) := by
  intro ls
  induction ls with
  | nil =>
      intro i idx h
      simp [labelMatchLoop] at h
      exact Or.inl h.symm
  | cons l ls ih =>
      intro i idx h
      cases hc : strcmpEqZero pred l with
      | none => simp [labelMatchLoop, hc] at h
      | some b =>
          cases b with
          | true =>
              simp [labelMatchLoop, hc] at h
              right
              have hlen : (0 : Int) ≤ (ls.length : Int) := by positivity
              constructor <;> simp [← h, List.length_cons]
          | false =>
              rw [labelMatchLoop, hc] at h
              rcases ih (i + 1) idx h with h1 | ⟨h1, h2⟩
              · exact Or.inl h1
              · right
                simp only [List.length_cons, Nat.cast_add, Nat.cast_one]
                omega

/-- A string not in the table makes the matching loop return -1. -/
lemma labelMatchLoop_not_mem (s : String) :
    ∀ ls i, s ∉ ls → labelMatchLoop (CStr.str s) ls i = some (-1) := by
  intro ls
  induction ls with
  | nil => intro i _; rfl
  | cons l ls ih =>
      intro i hmem
      have h1 : s ≠ l := fun h => hmem (by simp [h])
      have h2 : s ∉ ls := fun h => hmem (List.mem_cons_of_mem l h)
      have hb : (s == l) = false := beq_eq_false_iff_ne.mpr h1
      simp [labelMatchLoop, strcmpEqZero, hb, ih (i + 1) h2]

/-- Every iteration on the empty (null) label pointer hits undefined
strcmp behavior at once. -/
lemma labelMatchLoop_null (l : String) (ls : List String) (i : Int) :
    labelMatchLoop CStr.null (l :: ls) i = none := rfl

lemma labelMatchLoop_null_waste : labelMatchLoop CStr.null wasteLabels 0 = none := rfl

/-- Complete case analysis of one detection cycle: exactly one of the seven
outcomes occurs, with the stated trace and state. -/
lemma handleWasteDetected_cases (env : CycleEnv) (slot : Int) :
    ((ensureConnected env.wifi).1 = false ∧
      handleWasteDetected env slot =
        (slot, (ensureConnected env.wifi).2, CycleOutcome.connectivityTimeout)) ∨
    ((ensureConnected env.wifi).1 = true ∧ env.captureOk = false ∧
      handleWasteDetected env slot =
        (slot, (ensureConnected env.wifi).2 ++ [Ev.captureFrame],
          CycleOutcome.captureError)) ∨
    ((ensureConnected env.wifi).1 = true ∧ env.captureOk = true ∧ ¬ env.httpCode > 0 ∧
      handleWasteDetected env slot =
        (slot, (ensureConnected env.wifi).2 ++ [Ev.captureFrame, Ev.httpPost],
          CycleOutcome.networkError)) ∨
    ((ensureConnected env.wifi).1 = true ∧ env.captureOk = true ∧ env.httpCode > 0 ∧
      env.parseFailed = true ∧
      handleWasteDetected env slot =
        (slot, (ensureConnected env.wifi).2 ++ [Ev.captureFrame, Ev.httpPost],
          CycleOutcome.parseError)) ∨
    ((ensureConnected env.wifi).1 = true ∧ env.captureOk = true ∧ env.httpCode > 0 ∧
      env.parseFailed = false ∧ env.labelField = none ∧
      handleWasteDetected env slot =
        (slot, (ensureConnected env.wifi).2 ++ [Ev.captureFrame, Ev.httpPost],
          CycleOutcome.nullStrcmp)) ∨
    (∃ s, (ensureConnected env.wifi).1 = true ∧ env.captureOk = true ∧ env.httpCode > 0 ∧
      env.parseFailed = false ∧ env.labelField = some s ∧ findLabelIndex s = -1 ∧
      handleWasteDetected env slot =
        (slot, (ensureConnected env.wifi).2 ++ [Ev.captureFrame, Ev.httpPost],
          CycleOutcome.unknownLabel)) ∨
    (∃ s, (ensureConnected env.wifi).1 = true ∧ env.captureOk = true ∧ env.httpCode > 0 ∧
      env.parseFailed = false ∧ env.labelField = some s ∧ findLabelIndex s ≠ -1 ∧
      handleWasteDetected env slot =
        (findLabelIndex s,
          (ensureConnected env.wifi).2 ++ [Ev.captureFrame, Ev.httpPost] ++
            (sortWaste slot (findLabelIndex s)).2,
          CycleOutcome.sorted (findLabelIndex s))) := by
  cases hw : (ensureConnected env.wifi).1 with
  | false => exact Or.inl ⟨rfl, by simp [handleWasteDetected, hw]⟩
  | true =>
      right
      cases hcap : env.captureOk with
      | false => exact Or.inl ⟨rfl, rfl, by simp [handleWasteDetected, hw, hcap]⟩
      | true =>
          right
          by_cases hhttp : env.httpCode > 0
          · right
            cases hp : env.parseFailed with
            | true => exact Or.inl ⟨rfl, rfl, hhttp, rfl, by simp [handleWasteDetected, hw, hcap, hhttp, hp]⟩
            | false =>
                right
                cases hl : env.labelField with
                | none =>
                    exact Or.inl ⟨rfl, rfl, hhttp, rfl, rfl,
                      by simp [handleWasteDetected, hw, hcap, hhttp, hp, hl, labelMatchLoop_null_waste]⟩
                | some s =>
                    right
                    obtain ⟨r0, hr0⟩ := labelMatchLoop_str_isSome s wasteLabels 0
                    have hfi : findLabelIndex s = r0 := by simp [findLabelIndex, hr0]
                    by_cases hidx : r0 = -1
                    · exact Or.inl ⟨s, rfl, rfl, hhttp, rfl, rfl, by rw [hfi]; exact hidx,
                        by simp [handleWasteDetected, hw, hcap, hhttp, hp, hl, hr0, hidx]⟩
                    · refine Or.inr ⟨s, rfl, rfl, hhttp, rfl, rfl, by rw [hfi]; exact hidx, ?_⟩
                      rw [hfi]
                      simp [handleWasteDetected, hw, hcap, hhttp, hp, hl, hr0, hidx, sortWaste_fst]
          · exact Or.inl ⟨rfl, rfl, hhttp, by simp [handleWasteDetected, hw, hcap, hhttp]⟩

/-- The connectivity block never moves hardware, writes the slot, or
captures a frame. -/
lemma ensureConnected_no_motion (w : WifiEnv) :
    (∀ v, Ev.setSlot v ∉ (ensureConnected w).2) ∧
    (∀ n, Ev.stepperStep n ∉ (ensureConnected w).2) ∧
    (∀ a, Ev.servoWrite a ∉ (ensureConnected w).2) ∧
    Ev.captureFrame ∉ (ensureConnected w).2 := by
  refine ⟨fun v hv => ?_, fun n hn => ?_, fun a ha => ?_, fun hc => ?_⟩
  · rcases mem_ensureConnected w _ hv with h | h | h | h | ⟨m, h⟩ <;> simp at h
  · rcases mem_ensureConnected w _ hn with h | h | h | h | ⟨m, h⟩ <;> simp at h
  · rcases mem_ensureConnected w _ ha with h | h | h | h | ⟨m, h⟩ <;> simp at h
  · rcases mem_ensureConnected w _ hc with h | h | h | h | ⟨m, h⟩ <;> simp at h

/-- An aborted cycle's trace (connectivity events plus at most the capture
and POST markers) contains no slot write, no stepper move, no servo move. -/
lemma no_motion_pre (w : WifiEnv) (extra : List Ev)
    (hx : ∀ x ∈ extra, x = Ev.captureFrame ∨ x = Ev.httpPost) :
    (∀ v, Ev.setSlot v ∉ (ensureConnected w).2 ++ extra) ∧
    (∀ n, Ev.stepperStep n ∉ (ensureConnected w).2 ++ extra) ∧
    (∀ a, Ev.servoWrite a ∉ (ensureConnected w).2 ++ extra) := by
  obtain ⟨h1, h2, h3, _⟩ := ensureConnected_no_motion w
  refine ⟨fun v hv => ?_, fun n hn => ?_, fun a ha => ?_⟩
  · rcases List.mem_append.mp hv with hm | hm
    · exact h1 v hm
    · rcases hx _ hm with h | h <;> simp at h
  · rcases List.mem_append.mp hn with hm | hm
    · exact h2 n hm
    · rcases hx _ hm with h | h <;> simp at h
  · rcases List.mem_append.mp ha with hm | hm
    · exact h3 a hm
    · rcases hx _ hm with h | h <;> simp at h

/-! ## Sample environments for the concrete witnesses -/

/-- A WiFi link that is already established. -/
def wifiUp : WifiEnv := ⟨true, fun _ => true⟩

/-- A WiFi link that is down and never comes back. -/
def wifiDown : WifiEnv := ⟨false, fun _ => false⟩

/-- A cycle in which everything succeeds and the classifier says Metal. -/
def envSortMetal : CycleEnv := ⟨wifiUp, true, 200, false, some "Metal"⟩

/-- A cycle whose HTTP POST fails. -/
def envNetworkFail : CycleEnv := ⟨wifiUp, true, -1, false, none⟩

/-- A cycle in which the classifier returns an unmapped label. -/
def envUnknownBanana : CycleEnv := ⟨wifiUp, true, 200, false, some "banana"⟩

/-- A cycle whose JSON response carries no string label member. -/
def envNullLabel : CycleEnv := ⟨wifiUp, true, 200, false, none⟩

/-- A cycle that cannot re-establish WiFi. -/
def envWifiTimeout : CycleEnv := ⟨wifiDown, true, 200, false, some "Metal"⟩

/-- Claim C2: a cycle that ends in NetworkError (non-positive HTTP result),
ParseError, or UnknownLabel aborts without running the sort routine: the
carousel position is unchanged and no slot write, stepper move, or servo
move appears in the trace. -/
theorem failure_isolation (env : CycleEnv) (slot : Int)
    (h : (handleWasteDetected env slot).2.2 = CycleOutcome.networkError ∨
         (handleWasteDetected env slot).2.2 = CycleOutcome.parseError ∨
         (handleWasteDetected env slot).2.2 = CycleOutcome.unknownLabel) :
    (handleWasteDetected env slot).1 = slot ∧
    (∀ v, Ev.setSlot v ∉ (handleWasteDetected env slot).2.1) ∧
    (∀ n, Ev.stepperStep n ∉ (handleWasteDetected env slot).2.1) ∧
    (∀ a, Ev.servoWrite a ∉ (handleWasteDetected env slot).2.1) := by
  have hpost : ∀ x ∈ [Ev.captureFrame, Ev.httpPost],
      x = Ev.captureFrame ∨ x = Ev.httpPost := by
    intro x hx
    fin_cases hx <;> simp
  rcases handleWasteDetected_cases env slot with
    ⟨_, hr⟩ | ⟨_, _, hr⟩ | ⟨_, _, _, hr⟩ | ⟨_, _, _, _, hr⟩ | ⟨_, _, _, _, _, hr⟩ |
    ⟨s, _, _, _, _, _, _, hr⟩ | ⟨s, _, _, _, _, _, _, hr⟩
  · rw [hr] at h; simp at h
  · rw [hr] at h; simp at h
  · rw [hr]
    obtain ⟨g1, g2, g3⟩ := no_motion_pre env.wifi [Ev.captureFrame, Ev.httpPost] hpost
    exact ⟨rfl, g1, g2, g3⟩
  · rw [hr]
    obtain ⟨g1, g2, g3⟩ := no_motion_pre env.wifi [Ev.captureFrame, Ev.httpPost] hpost
    exact ⟨rfl, g1, g2, g3⟩
  · rw [hr] at h; simp at h
  · rw [hr]
    obtain ⟨g1, g2, g3⟩ := no_motion_pre env.wifi [Ev.captureFrame, Ev.httpPost] hpost
    exact ⟨rfl, g1, g2, g3⟩
  · rw [hr] at h; simp at h

/-- Witness for C2: a failed POST (code -1) leaves slot 0 unchanged. -/
theorem failure_isolation_witness :
    ((handleWasteDetected envNetworkFail 0).2.2 = CycleOutcome.networkError ∨
     (handleWasteDetected envNetworkFail 0).2.2 = CycleOutcome.parseError ∨
     (handleWasteDetected envNetworkFail 0).2.2 = CycleOutcome.unknownLabel) ∧
    (handleWasteDetected envNetworkFail 0).1 = 0 :=
  ⟨Or.inl (by decide), (failure_isolation envNetworkFail 0 (Or.inl (by decide))).1⟩

/-- Claim C6: label matching is exact, case-sensitive string equality; each
table label maps to its own table position (an in-range bin index,
deterministically); any other string yields -1 and the UnknownLabel outcome,
which sorts nothing and falls back to no bin. -/
theorem routing_table (s : String) (hs : s ∉ wasteLabels) :
    (findLabelIndex "Plastic" = 0 ∧ findLabelIndex "Paper" = 1 ∧
     findLabelIndex "Organic" = 2 ∧ findLabelIndex "Metal" = 3 ∧
     findLabelIndex "Glass" = 4) ∧
    (findLabelIndex "plastic" = -1 ∧ findLabelIndex "METAL" = -1) ∧
    (∀ l ∈ wasteLabels, 0 ≤ findLabelIndex l ∧ findLabelIndex l < wasteCategories) ∧
    findLabelIndex s = -1 ∧
    (∀ env slot, env.labelField = some s →
      (ensureConnected env.wifi).1 = true → env.captureOk = true →
      env.httpCode > 0 → env.parseFailed = false →
      (handleWasteDetected env slot).2.2 = CycleOutcome.unknownLabel ∧
      (handleWasteDetected env slot).1 = slot ∧
      (∀ v, Ev.setSlot v ∉ (handleWasteDetected env slot).2.1)) := by
  have hr0 : labelMatchLoop (CStr.str s) wasteLabels 0 = some (-1) :=
    labelMatchLoop_not_mem s wasteLabels 0 hs
  have hfs : findLabelIndex s = -1 := by simp [findLabelIndex, hr0]
  refine ⟨by decide, by decide, by decide, hfs, ?_⟩
  intro env slot hl hw hcap hhttp hp
  have hr : handleWasteDetected env slot =
      (slot, (ensureConnected env.wifi).2 ++ [Ev.captureFrame, Ev.httpPost],
        CycleOutcome.unknownLabel) := by
    simp [handleWasteDetected, hw, hcap, hhttp, hp, hl, hr0]
  rw [hr]
  refine ⟨rfl, rfl, ?_⟩
  exact (no_motion_pre env.wifi [Ev.captureFrame, Ev.httpPost]
    (by intro x hx; fin_cases hx <;> simp)).1

/-- Witness for C6 with the unmapped label "banana". -/
theorem routing_table_witness :
    ("banana" ∉ wasteLabels) ∧ findLabelIndex "banana" = -1 ∧
    (handleWasteDetected envUnknownBanana 0).2.2 = CycleOutcome.unknownLabel ∧
    (handleWasteDetected envUnknownBanana 0).1 = 0 := by
  have h := routing_table "banana" (by decide)
  have h2 := h.2.2.2.2 envUnknownBanana 0 rfl rfl rfl (by decide) rfl
  exact ⟨by decide, h.2.2.2.1, h2.1, h2.2.1⟩

/-- One cycle either leaves the slot unchanged or sets it to a successful
table-lookup result, which lies in [0, wasteCategories). -/
lemma handleWasteDetected_slot (env : CycleEnv) (slot : Int) :
    (handleWasteDetected env slot).1 = slot ∨
    (0 ≤ (handleWasteDetected env slot).1 ∧
      (handleWasteDetected env slot).1 < wasteCategories) := by
  rcases handleWasteDetected_cases env slot with
    ⟨_, hr⟩ | ⟨_, _, hr⟩ | ⟨_, _, _, hr⟩ | ⟨_, _, _, _, hr⟩ | ⟨_, _, _, _, _, hr⟩ |
    ⟨s, _, _, _, _, _, _, hr⟩ | ⟨s, _, _, _, _, _, hne, hr⟩
  · exact Or.inl (by rw [hr])
  · exact Or.inl (by rw [hr])
  · exact Or.inl (by rw [hr])
  · exact Or.inl (by rw [hr])
  · exact Or.inl (by rw [hr])
  · exact Or.inl (by rw [hr])
  · right
    rw [hr]
    obtain ⟨r0, hr0⟩ := labelMatchLoop_str_isSome s wasteLabels 0
    have hfi : findLabelIndex s = r0 := by simp [findLabelIndex, hr0]
    rcases labelMatchLoop_range _ wasteLabels 0 r0 hr0 with h1 | ⟨h1, h2⟩
    · exact absurd (hfi.trans h1) hne
    · have hlen : ((wasteLabels.length : Int)) = 5 := by decide
      rw [hlen] at h2
      constructor
      · simp only [hfi]; omega
      · simp only [hfi, wasteCategories]; omega

/-- Claim C8: currentSlot starts at the home index 0 and stays in
[0, wasteCategories) across every iteration of the control loop, since its
only write stores a successful table-lookup index. -/
theorem currentSlot_invariant (env : CycleEnv) (st : SysState) (irLow : Bool) (now : Nat)
    (h0 : 0 ≤ st.currentSlot) (h5 : st.currentSlot < wasteCategories) :
    initialState.currentSlot = 0 ∧
    (0 ≤ (loopStep env st irLow now).1.currentSlot ∧
      (loopStep env st irLow now).1.currentSlot < wasteCategories) := by
  refine ⟨rfl, ?_⟩
  by_cases hc : irLow = true ∧ now - st.lastIrTime > irDebounceMs
  · rw [loopStep, if_pos hc]
    rcases handleWasteDetected_slot env st.currentSlot with h | ⟨ha, hb⟩
    · simpa [h] using And.intro h0 h5
    · exact ⟨by simpa using ha, by simpa using hb⟩
  · rw [loopStep, if_neg hc]
    exact ⟨h0, h5⟩

/-- Witness for C8 from the initial state through a successful Metal sort. -/
theorem currentSlot_invariant_witness :
    (0 ≤ initialState.currentSlot ∧ initialState.currentSlot < wasteCategories) ∧
    initialState.currentSlot = 0 ∧
    (0 ≤ (loopStep envSortMetal initialState true 300).1.currentSlot ∧
      (loopStep envSortMetal initialState true 300).1.currentSlot < wasteCategories) :=
  ⟨⟨by decide, by decide⟩,
    currentSlot_invariant envSortMetal initialState true 300 (by decide) (by decide)⟩

/-- Claim C9: the label-matching step is well-defined whenever the parsed
document carries a string label (the loop then always terminates with a
result); when the response parses but carries no label, the extracted
pointer is null, every iteration of the loop immediately applies strcmp to
the null string (undefined behavior), and the cycle records that state with
the position unchanged. -/
theorem null_label_strcmp (env : CycleEnv) (slot : Int) (s l0 : String)
    (ls : List String) (i : Int)
    (hhttp : env.httpCode > 0) (hp : env.parseFailed = false)
    (hl : env.labelField = none)
    (hw : (ensureConnected env.wifi).1 = true) (hcap : env.captureOk = true) :
    (∃ r, labelMatchLoop (CStr.str s) wasteLabels 0 = some r) ∧
    strcmpEqZero CStr.null l0 = none ∧
    labelMatchLoop CStr.null (l0 :: ls) i = none ∧
    (handleWasteDetected env slot).2.2 = CycleOutcome.nullStrcmp ∧
    (handleWasteDetected env slot).1 = slot := by
  have hr : handleWasteDetected env slot =
      (slot, (ensureConnected env.wifi).2 ++ [Ev.captureFrame, Ev.httpPost],
        CycleOutcome.nullStrcmp) := by
    simp [handleWasteDetected, hw, hcap, hhttp, hp, hl, labelMatchLoop_null_waste]
  exact ⟨labelMatchLoop_str_isSome s wasteLabels 0, rfl, rfl, by rw [hr], by rw [hr]⟩

/-- Witness for C9: valid JSON with no label member. -/
theorem null_label_strcmp_witness :
    envNullLabel.httpCode > 0 ∧ envNullLabel.parseFailed = false ∧
    envNullLabel.labelField = none ∧
    (handleWasteDetected envNullLabel 0).2.2 = CycleOutcome.nullStrcmp :=
  ⟨by decide, rfl, rfl,
    (null_label_strcmp envNullLabel 0 "x" "Plastic" [] 0 (by decide) rfl rfl rfl
      rfl).2.2.2.1⟩

/-- A LOW IR read past the debounce window is accepted: the detection time
is recorded and a full cycle runs. -/
lemma loopStep_accept (env : CycleEnv) (st : SysState) (now : Nat)
    (h : now - st.lastIrTime > irDebounceMs) :
    loopStep env st true now =
      (⟨(handleWasteDetected env st.currentSlot).1, now⟩,
        beep 2 100 50 ++ (handleWasteDetected env st.currentSlot).2.1) := by
  rw [loopStep, if_pos ⟨rfl, h⟩]

/-- Any other tick changes nothing and emits nothing. -/
lemma loopStep_reject (env : CycleEnv) (st : SysState) (irLow : Bool) (now : Nat)
    (h : ¬ (irLow = true ∧ now - st.lastIrTime > irDebounceMs)) :
    loopStep env st irLow now = (st, []) := by
  rw [loopStep, if_neg h]

/-- A cycle that fails at the camera: WiFi fine, no frame. -/
def envCaptureFail : CycleEnv := ⟨wifiUp, false, 200, false, none⟩

/-- Claim C4: an accepted detection at t1 records t1 and starts one full
processing cycle (detect beeps then the cycle trace); a second detection
strictly within the debounce interval after t1 is suppressed (no state
change, no events); a second detection strictly beyond it is accepted and
starts its own full cycle. -/
theorem debounce (env1 env2 : CycleEnv) (st : SysState) (t1 t2 : Nat)
    (h1 : t1 - st.lastIrTime > irDebounceMs) :
    (loopStep env1 st true t1).1.lastIrTime = t1 ∧
    (loopStep env1 st true t1).2 =
      beep 2 100 50 ++ (handleWasteDetected env1 st.currentSlot).2.1 ∧
    (t2 - t1 < irDebounceMs →
      loopStep env2 (loopStep env1 st true t1).1 true t2 =
        ((loopStep env1 st true t1).1, [])) ∧
    (t2 - t1 > irDebounceMs →
      (loopStep env2 (loopStep env1 st true t1).1 true t2).1.lastIrTime = t2 ∧
      (loopStep env2 (loopStep env1 st true t1).1 true t2).2 =
        beep 2 100 50 ++
          (handleWasteDetected env2
            (loopStep env1 st true t1).1.currentSlot).2.1) := by
  have hs1 := loopStep_accept env1 st t1 h1
  rw [hs1]
  refine ⟨rfl, rfl, ?_, ?_⟩
  · intro hlt
    apply loopStep_reject
    simp only [irDebounceMs] at hlt ⊢
    simp only [true_and]
    omega
  · intro hgt
    rw [loopStep_accept env2 _ t2 hgt]
    exact ⟨rfl, rfl⟩

/-- Witness for C4: detections at 300 and 400 ms (second suppressed),
starting from the initial state. -/
theorem debounce_witness :
    300 - initialState.lastIrTime > irDebounceMs ∧
    (loopStep envCaptureFail initialState true 300).1.lastIrTime = 300 ∧
    loopStep envCaptureFail (loopStep envCaptureFail initialState true 300).1 true 400 =
      ((loopStep envCaptureFail initialState true 300).1, []) := by
  have h := debounce envCaptureFail envCaptureFail initialState 300 400 (by decide)
  exact ⟨by decide, h.1, h.2.2.1 (by decide)⟩

/-- Claim C5: with the link already up the connectivity step returns true
at once, emitting nothing; otherwise it tears the link down, re-establishes
it, and polls at 200 ms intervals for at most 25 polls (5 s), returning the
final link state with the connected pattern on success or the failed
pattern exactly once (3 pulses) on timeout, in which case the cycle aborts
with the position unchanged and no capture attempted. -/
theorem ensureConnected_contract (env : CycleEnv) (slot : Int) :
    (env.wifi.initiallyConnected = true → ensureConnected env.wifi = (true, [])) ∧
    (env.wifi.initiallyConnected = false →
      ∃ n, n ≤ 25 ∧
        ensureConnected env.wifi =
          (env.wifi.statusAt (200 * n),
           Ev.wifiDisconnect :: Ev.wifiReconnect ::
             (List.replicate n (Ev.delayMs 200) ++
               (if env.wifi.statusAt (200 * n) = true then beepWiFiConnected
                else beepWiFiFailed)))) ∧
    ((ensureConnected env.wifi).1 = false →
      (handleWasteDetected env slot).1 = slot ∧
      (handleWasteDetected env slot).2.1 = (ensureConnected env.wifi).2 ∧
      (handleWasteDetected env slot).2.2 = CycleOutcome.connectivityTimeout ∧
      Ev.captureFrame ∉ (handleWasteDetected env slot).2.1 ∧
      (handleWasteDetected env slot).2.1.count Ev.buzzerOn = 3) := by
  refine ⟨?_, ?_, ?_⟩
  · intro hi
    simp [ensureConnected, hi]
  · intro hi
    rcases ensureConnected_shape env.wifi with ⟨hi2, _⟩ | ⟨_, n, hn, heq⟩
    · rw [hi] at hi2
      exact absurd hi2 (by simp)
    · exact ⟨n, hn, heq⟩
  · intro hf
    have hr : handleWasteDetected env slot =
        (slot, (ensureConnected env.wifi).2, CycleOutcome.connectivityTimeout) := by
      simp [handleWasteDetected, hf]
    rw [hr]
    refine ⟨rfl, rfl, rfl, (ensureConnected_no_motion env.wifi).2.2.2, ?_⟩
    rcases ensureConnected_shape env.wifi with ⟨_, heq⟩ | ⟨_, n, _, heq⟩
    · rw [heq] at hf
      simp at hf
    · rw [heq] at hf ⊢
      simp only [] at hf
      rw [if_neg (by simp [hf])]
      simp [beepWiFiFailed_eq, List.count_cons, List.count_append, List.count_replicate]
/-- Witness for C5: the link is down and never returns, so the cycle aborts
before capture with the position unchanged. -/
theorem ensureConnected_contract_witness :
    envWifiTimeout.wifi.initiallyConnected = false ∧
    (ensureConnected envWifiTimeout.wifi).1 = false ∧
    (handleWasteDetected envWifiTimeout 0).1 = 0 ∧
    (handleWasteDetected envWifiTimeout 0).2.2 = CycleOutcome.connectivityTimeout ∧
    Ev.captureFrame ∉ (handleWasteDetected envWifiTimeout 0).2.1 ∧
    (handleWasteDetected envWifiTimeout 0).2.1.count Ev.buzzerOn = 3 := by
  have h := ensureConnected_contract envWifiTimeout 0
  obtain ⟨n, -, heq⟩ := h.2.1 rfl
  have hf : (ensureConnected envWifiTimeout.wifi).1 = false := by
    rw [heq]
    rfl
  obtain ⟨c1, c2, c3, c4, c5⟩ := h.2.2 hf
  exact ⟨rfl, hf, c1, c3, c4, c5⟩
